import Mathlib

/-!
Verification development for the `chem_eng_agents` repository.

The retrieval subsystem lives in `chemical_eng_kb.py`
(`ChemicalEngineeringKnowledgeBase`): PDF extraction, word-window chunking,
embedding, a FAISS `IndexFlatL2` vector store, an on-disk cache of the
chunk list and the index, and `query_document_rag`.  The fluid-mechanics
agent lives in `fluid_mech_agent.py` (`FluidMechanicsAgent`).

Modelling conventions used throughout:
* Python floats are modelled as exact rationals (`ℚ`); embedding vectors as
  integer lists (`List Int`) with squared L2 distance, since every claim is
  about counts, ordering and positional lookup, not float rounding.
* Python exceptions are modelled as `Except` results; a `try/except` block
  becomes a `match` on the `Except` value.
* the pdfium document is modelled as `Except String (List Page)`: `.error`
  is "the file cannot be opened or parsed at all" (pdfium raising), `.ok`
  gives the pages in order.  A page's camelot table-extraction attempt
  (lattice flavor with stream fallback) is modelled by its observable
  outcome `Except String (List Table)`: `.error` is camelot raising for
  that page.
* the on-disk cache is a pair of optional files; a present file either
  parses (`.ok`) or is corrupt, i.e. raises on load (`.error`).
-/

/-- Python `str.lower()` (ASCII-relevant part), character by character. -/
def strLower (s : String) : String :=
  String.mk (s.data.map Char.toLower)

/-- Matching of a character-list pattern at the head of a list
(the helper behind the model of Python's `in` on strings). -/
def strStartsWith : List Char → List Char → Bool
  | [], _ => true
  | _ :: _, [] => false
  | a :: as, b :: bs => a == b && strStartsWith as bs

/-- Python `needle in hay` on strings, over character lists. -/
def strContainsSub (needle : List Char) : List Char → Bool
  | [] => strStartsWith needle []
  | c :: rest => strStartsWith needle (c :: rest) || strContainsSub needle rest

/-- Truth of Python `not s.strip()`: every character is whitespace. -/
def isBlank (s : String) : Bool :=
  s.data.all Char.isWhitespace

/-- Python `s.strip()`: drop leading and trailing whitespace. -/
def pyStrip (s : String) : String :=
  String.mk ((((s.data.dropWhile Char.isWhitespace).reverse).dropWhile
    Char.isWhitespace).reverse)

/-- Python `s.split()` with no separator: split on whitespace runs,
discarding empty pieces. -/
def pySplitWS (s : String) : List String :=
  (s.split Char.isWhitespace).filter (fun w => w ≠ "")

/-- Embedding vectors of the model `all-MiniLM-L6-v2`, modelled as integer
lists (floats as exact numbers). -/
abbrev Vec := List Int

/-- Squared L2 distance between two vectors, the metric of
`faiss.IndexFlatL2`. -/
def dist2 (q v : Vec) : Int :=
  (List.zipWith (fun a b => (a - b) * (a - b)) q v).sum

/-- Ordering of FAISS search candidates: by distance, ties by lower index
id first. -/
def pairLe (a b : Int × Nat) : Prop :=
  a.1 < b.1 ∨ (a.1 = b.1 ∧ a.2 ≤ b.2)

instance : DecidableRel pairLe := fun a b => by
  unfold pairLe; exact inferInstance

instance : IsTotal (Int × Nat) pairLe := by
  constructor
  intro a b
  rcases a with ⟨d1, i1⟩
  rcases b with ⟨d2, i2⟩
  simp only [pairLe]
  omega

instance : IsTrans (Int × Nat) pairLe := by
  constructor
  intro a b c hab hbc
  rcases a with ⟨d1, i1⟩
  rcases b with ⟨d2, i2⟩
  rcases c with ⟨d3, i3⟩
  simp only [pairLe] at *
  omega

/-- Candidate list of `faiss.IndexFlatL2.search`: every stored vector,
paired with its squared L2 distance to the query, sorted ascending. -/
def sortedPairs (vecs : List Vec) (q : Vec) : List (Int × Nat) :=
  List.insertionSort pairLe ((vecs.enum).map (fun p => (dist2 q p.2, p.1)))

/-- Actual neighbors returned for one query by
`faiss.IndexFlatL2.search(q, k)`: the `min k ntotal` nearest stored
vectors, ascending by distance. -/
def searchPairs (vecs : List Vec) (q : Vec) (k : Nat) : List (Int × Nat) :=
  (sortedPairs vecs q).take k

/-- Model of the distance FAISS reports for padding slots (`FLT_MAX`). -/
def padDist : Int := 340282346638528859811704183484516925440

/-- Label row returned by `faiss.IndexFlatL2.search(q, k)` : always exactly
`k` entries; when fewer than `k` vectors are stored, FAISS pads the row
with id `-1`. -/
def faiss_search_ids (vecs : List Vec) (q : Vec) (k : Nat) : List Int :=
  ((searchPairs vecs q k).map (fun p => (p.2 : Int))) ++
    List.replicate (k - (searchPairs vecs q k).length) (-1)

/-- Python list indexing `l[i]` with an `int` index: non-negative indices
count from the front, negative indices from the back.  (Out-of-range
access raises `IndexError` in Python; it is unreachable at the call site
modelled here, and the model returns `""` there.) -/
def pyGet (l : List String) (i : Int) : String :=
  if 0 ≤ i then l.getD i.toNat "" else l.getD (l.length - (-i).toNat) ""

/-- State of a `ChemicalEngineeringKnowledgeBase` instance relevant to
retrieval: `embedding_model`, `vector_store` (the FAISS flat index is its
stored vector list, in insertion order), and `text_chunks`. -/
structure KB where
  embedding_model : Option (String → Vec)
  vector_store : Option (List Vec)
  text_chunks : List String

/-- Model of `ChemicalEngineeringKnowledgeBase.query_document_rag`
(`chemical_eng_kb.py` lines 175-192): return the sentinel when the vector
store or the embedding model is absent, otherwise embed the query, search
the index with the requested `k`, and map every returned label through
Python list indexing on `text_chunks`. -/
def query_document_rag (kb : KB) (query_text : String) (k : Nat) : List String :=
  match kb.vector_store, kb.embedding_model with
  | some vecs, some e =>
      (faiss_search_ids vecs (e query_text) k).map (pyGet kb.text_chunks)
  | some _, none => ["RAG system not initialized or PDF not processed."]
  | none, _ => ["RAG system not initialized or PDF not processed."]

/-- One camelot table: whether its dataframe is empty, and its markdown
rendering (`table.df.to_markdown(index=False)`). -/
structure Table where
  empty : Bool
  md : String

/-- One PDF page: its extracted text and the outcome of the camelot
table-extraction attempt for it (`.error` models camelot raising on that
page). -/
structure Page where
  text : String
  tables : Except String (List Table)

instance : Inhabited Page := ⟨⟨"", .ok []⟩⟩

/-- Chunk text of one detected table (`chemical_eng_kb.py` line 115):
a provenance header, then the markdown rendering, stripped. -/
def render_table (pageIdx tableIdx : Nat) (md : String) : String :=
  pyStrip ("Table on page " ++ toString (pageIdx + 1) ++ ", table index " ++
    toString tableIdx ++ ":\n" ++ md)

/-- Table-derived chunks one page contributes (lines 101-118): none when
camelot raised (the warning is printed and extraction moves on), otherwise
one rendered chunk per non-empty table, numbered by `enumerate(tables)`. -/
def page_table_chunks (i : Nat) (p : Page) : List String :=
  match p.tables with
  | .error _ => []
  | .ok ts =>
      ts.enum.filterMap
        (fun q => if q.2.empty then none else some (render_table i q.1 q.2.md))

/-- Text windows of one paragraph (lines 132-135): Python
`for j in range(0, len(words), chunk_size - chunk_overlap)` and
`" ".join(words[j:j + chunk_size])`. -/
def chunk_windows (chunk_size chunk_overlap : Nat) (words : List String) :
    List String :=
  (List.range' 0 ((words.length + (chunk_size - chunk_overlap) - 1) /
      (chunk_size - chunk_overlap)) (chunk_size - chunk_overlap)).map
    (fun j => String.intercalate " " ((words.drop j).take chunk_size))

/-- Chunks of one paragraph (lines 130-135): skipped entirely when blank,
otherwise the word windows of its whitespace-split words. -/
def para_chunks (chunk_size chunk_overlap : Nat) (para : String) : List String :=
  if isBlank para then [] else chunk_windows chunk_size chunk_overlap (pySplitWS para)

/-- Text-derived chunks of one page (lines 127-135): nothing when the page
text is blank, otherwise the chunks of every paragraph after splitting on
`"\n\n"`. -/
def page_text_chunks (chunk_size chunk_overlap : Nat) (text : String) :
    List String :=
  if isBlank text then []
  else (text.splitOn "\n\n").flatMap (para_chunks chunk_size chunk_overlap)

/-- Everything page `i` appends to `all_content_chunks`: table chunks
first (inside the `try`), then its text chunks. -/
def process_page (chunk_size chunk_overlap : Nat) (i : Nat) (p : Page) :
    List String :=
  page_table_chunks i p ++ page_text_chunks chunk_size chunk_overlap p.text

/-- The full `all_content_chunks` list accumulated by the page loop
(lines 96-136). -/
def all_content_chunks (chunk_size chunk_overlap : Nat) (pages : List Page) :
    List String :=
  (pages.enum.map (fun q => process_page chunk_size chunk_overlap q.1 q.2)).flatten

/-- Model of `_load_and_index_pdf` (lines 85-160).  A document-open
failure is re-raised as `RuntimeError` carrying the path and cause
(lines 140-141); after the loop the chunks are filtered for blanks
(line 143), an empty result raises `ValueError` (lines 149-150), and
otherwise the chunks are embedded in order and added to a fresh
`IndexFlatL2` (lines 152-160).  The successful result is the pair
(`text_chunks`, stored vectors). -/
def _load_and_index_pdf (e : String → Vec) (chunk_size chunk_overlap : Nat)
    (pdf_path : String) (doc : Except String (List Page)) :
    Except String (List String × List Vec) :=
  match doc with
  | .error cause =>
      .error ("Failed to load or parse PDF " ++ pdf_path ++ ": " ++ cause)
  | .ok pages =>
      if ((all_content_chunks chunk_size chunk_overlap pages).filter
          (fun c => !(isBlank c))).isEmpty then
        .error "Text chunking resulted in no chunks."
      else
        .ok ((all_content_chunks chunk_size chunk_overlap pages).filter
            (fun c => !(isBlank c)),
          ((all_content_chunks chunk_size chunk_overlap pages).filter
            (fun c => !(isBlank c))).map e)

/-- On-disk cache state for one source PDF: the pickled chunk list and the
serialized FAISS index.  `none` is an absent file; `some (.error m)` is a
present file whose load raises. -/
structure Cache where
  chunks_file : Option (Except String (List String))
  faiss_file : Option (Except String (List Vec))

/-- Model of `_initialize_and_build_rag` (lines 63-82): run
`_load_and_index_pdf`; on success write both cache artifacts; on any
exception print and absorb it, setting `embedding_model` to `None`.
`prior_chunks` is the value `self.text_chunks` holds on entry, which the
instance keeps when the document fails to open before line 143 runs. -/
def _initialize_and_build_rag (e : String → Vec) (chunk_size chunk_overlap : Nat)
    (pdf_path : String) (doc : Except String (List Page))
    (prior_chunks : List String) (cache : Cache) : KB × Cache :=
  match _load_and_index_pdf e chunk_size chunk_overlap pdf_path doc with
  | .ok (chunks, vecs) =>
      if chunks.isEmpty then
        (⟨none, some vecs, chunks⟩, cache)
      else
        (⟨some e, some vecs, chunks⟩, ⟨some (.ok chunks), some (.ok vecs)⟩)
  | .error _ =>
      (⟨none, none, match doc with | .error _ => prior_chunks | .ok _ => []⟩,
        cache)

/-- Model of `ChemicalEngineeringKnowledgeBase.__init__` for a given PDF
path (lines 39-61): unless `force_reprocess` is set and provided both
cache files exist, try to load them, falling back to the full rebuild on
any load exception; otherwise rebuild.  When the chunk pickle loaded but
the index file raises, `self.text_chunks` already holds the loaded
chunks. -/
def kb_init (e : String → Vec) (chunk_size chunk_overlap : Nat)
    (pdf_path : String) (doc : Except String (List Page))
    (force_reprocess : Bool) (cache : Cache) : KB × Cache :=
  if !force_reprocess && cache.chunks_file.isSome && cache.faiss_file.isSome then
    match cache.chunks_file, cache.faiss_file with
    | some (.ok chunks), some (.ok vecs) =>
        (⟨some e, some vecs, chunks⟩, cache)
    | some (.ok chunks), some (.error _) =>
        _initialize_and_build_rag e chunk_size chunk_overlap pdf_path doc chunks cache
    | _, _ =>
        _initialize_and_build_rag e chunk_size chunk_overlap pdf_path doc [] cache
  else
    _initialize_and_build_rag e chunk_size chunk_overlap pdf_path doc [] cache

/-- Python value stored in the dictionaries the agent passes around:
a float (modelled as `ℚ`), a string, or a nested dictionary. -/
inductive PVal where
  | num : ℚ → PVal
  | str : String → PVal
  | dict : List (String × PVal) → PVal

/-- Python dictionary with string keys, as an association list. -/
abbrev Params := List (String × PVal)

/-- Python exception kinds the agent code can produce. -/
inductive PyErr where
  | valueError : String → PyErr
  | typeError : String → PyErr
  | zeroDivisionError : String → PyErr

/-- Message of a Python exception, as `str(e)` renders it. -/
def pyErrMsg : PyErr → String
  | .valueError m => m
  | .typeError m => m
  | .zeroDivisionError m => m

/-- Evaluation of a stored value in numeric position: a non-number raises
`TypeError` in Python arithmetic. -/
def asNum : PVal → Except PyErr ℚ
  | .num q => .ok q
  | _ => .error (.typeError "unsupported operand type for arithmetic")

/-- Truth of the Python comparison `value == 0` for a stored value. -/
def pyEqZero : PVal → Bool
  | .num q => q == 0
  | _ => false

/-- Python `round(q * 10^2) / 10^2` helper: round half to even, the
semantics of Python 3 `round`. -/
def pyRoundHalfEven (q : ℚ) : ℤ :=
  if q - ⌊q⌋ < 1 / 2 then ⌊q⌋
  else if 1 / 2 < q - ⌊q⌋ then ⌊q⌋ + 1
  else if ⌊q⌋ % 2 = 0 then ⌊q⌋ else ⌊q⌋ + 1

/-- Model of Python `round(x, 2)` with floats as exact rationals. -/
def pyRound2 (q : ℚ) : ℚ :=
  (pyRoundHalfEven (q * 100) : ℚ) / 100

/-- Model of `ChemicalEngineeringKnowledgeBase.get_fluid_property`
(`chemical_eng_kb.py` lines 162-173): hard-coded water properties,
`None` otherwise. -/
def get_fluid_property (fluid_name property_name : String) : Option ℚ :=
  if strLower fluid_name == "water" && strLower property_name == "density_kg_m3"
    then some 1000
  else if strLower fluid_name == "water" && strLower property_name == "viscosity_pa_s"
    then some (1 / 1000)
  else none

/-- The fixed `extracted_params` dictionary `_parse_task` builds
(`fluid_mech_agent.py` lines 45-54). -/
def extracted_params : Params :=
  [("diameter_m", .num (1 / 10)),
   ("flow_rate_m3_s", .num (5 / 100)),
   ("velocity_m_s", .num (637 / 1000)),
   ("density_kg_m3", .num ((get_fluid_property "water" "density_kg_m3").getD 1000)),
   ("viscosity_Pa_s", .num ((get_fluid_property "water" "viscosity_Pa_s").getD (1 / 1000))),
   ("length_m", .num 100),
   ("roughness_m", .num (45 / 1000000)),
   ("fluid_name", .str "water")]

/-- Model of `FluidMechanicsAgent._parse_task` (lines 23-62): lowercase
the description, route on substring containment, and attach the fixed
parameter dictionary (or the `original_task` dictionary for an
unrecognized description). -/
def _parse_task (task_description : String) : String × Params :=
  if strContainsSub "pressure drop".data (strLower task_description).data then
    ("pressure_drop", extracted_params)
  else if strContainsSub "flow regime".data (strLower task_description).data then
    ("flow_regime", extracted_params)
  else
    ("unknown", [("original_task", .str task_description)])

/-- Check that every required key is present in the dictionary. -/
def requiredPresent (params : Params) (keys : List String) : Bool :=
  keys.all (fun key => (List.lookup key params).isSome)

/-- Keys of `required_keys` missing from the dictionary, in order, for the
`ValueError` message. -/
def missingKeys (params : Params) (keys : List String) : List String :=
  keys.filter (fun key => (List.lookup key params).isNone)

/-- Model of `FluidMechanicsAgent._calculate_pressure_drop`
(lines 90-114): `ValueError` on missing keys, else the simplified
Darcy-Weisbach formula with the dummy friction factor `0.02`
(`ZeroDivisionError` on a zero diameter, as Python float division
raises). -/
def _calculate_pressure_drop (params : Params) : Except PyErr Params :=
  if !(requiredPresent params ["density_kg_m3", "velocity_m_s", "length_m",
      "diameter_m", "viscosity_Pa_s", "roughness_m"]) then
    .error (.valueError ("Missing required parameters for pressure drop: " ++
      String.intercalate ", " (missingKeys params ["density_kg_m3", "velocity_m_s",
        "length_m", "diameter_m", "viscosity_Pa_s", "roughness_m"])))
  else do
    let length_m ← asNum ((List.lookup "length_m" params).getD (.num 0))
    let diameter_m ← asNum ((List.lookup "diameter_m" params).getD (.num 0))
    let density ← asNum ((List.lookup "density_kg_m3" params).getD (.num 0))
    let velocity ← asNum ((List.lookup "velocity_m_s" params).getD (.num 0))
    if diameter_m == 0 then
      .error (.zeroDivisionError "float division by zero")
    else
      .ok [("pressure_drop_Pa",
              .num ((1 / 50) * (length_m / diameter_m) *
                (density * velocity * velocity / 2))),
           ("unit", .str "Pa"),
           ("method", .str "Darcy-Weisbach (simplified)")]

/-- Model of `FluidMechanicsAgent._determine_flow_regime` (lines 116-138):
`ValueError` on missing keys, `ValueError` when the stored viscosity
compares equal to zero, otherwise the Reynolds number with the
laminar / transitional / turbulent classification and the result value
rounded to two decimals. -/
def _determine_flow_regime (params : Params) : Except PyErr Params :=
  if !(requiredPresent params ["density_kg_m3", "velocity_m_s", "diameter_m",
      "viscosity_Pa_s"]) then
    .error (.valueError ("Missing required parameters for flow regime: " ++
      String.intercalate ", " (missingKeys params ["density_kg_m3", "velocity_m_s",
        "diameter_m", "viscosity_Pa_s"])))
  else if pyEqZero ((List.lookup "viscosity_Pa_s" params).getD (.num 0)) then
    .error (.valueError "Viscosity cannot be zero for Reynolds number calculation.")
  else do
    let density ← asNum ((List.lookup "density_kg_m3" params).getD (.num 0))
    let velocity ← asNum ((List.lookup "velocity_m_s" params).getD (.num 0))
    let diameter ← asNum ((List.lookup "diameter_m" params).getD (.num 0))
    let viscosity ← asNum ((List.lookup "viscosity_Pa_s" params).getD (.num 0))
    let reynolds_number := density * velocity * diameter / viscosity
    let regime :=
      if reynolds_number < 2300 then "laminar"
      else if reynolds_number < 4000 then "transitional"
      else "turbulent"
    .ok [("reynolds_number", .num (pyRound2 reynolds_number)),
         ("flow_regime", .str regime)]

/-- The `capabilities` dictionary of `FluidMechanicsAgent.__init__`
(lines 16-20). -/
def capabilities : List (String × (Params → Except PyErr Params)) :=
  [("pressure_drop", _calculate_pressure_drop),
   ("flow_regime", _determine_flow_regime)]

/-- Model of `FluidMechanicsAgent.execute_task` (lines 64-88): parse, look
the task type up in `capabilities`, run it under `try`, and wrap every
outcome in a status dictionary. -/
def execute_task (task_description : String) : Params :=
  match List.lookup (_parse_task task_description).1 capabilities with
  | some calculation_method =>
      match calculation_method (_parse_task task_description).2 with
      | .ok result_data =>
          [("status", .str "success"),
           ("task", .str (_parse_task task_description).1),
           ("result", .dict result_data)]
      | .error (.valueError m) =>
          [("status", .str "error"),
           ("task", .str (_parse_task task_description).1),
           ("message", .str ("Parameter error: " ++ m))]
      | .error e =>
          [("status", .str "error"),
           ("task", .str (_parse_task task_description).1),
           ("message", .str ("Calculation error: " ++ pyErrMsg e))]
  | none =>
      [("status", .str "error"),
       ("task", .str (_parse_task task_description).1),
       ("message", .str ("Unknown task type: " ++ (_parse_task task_description).1))]

/-- Concrete embedding used for concrete instances: a string's length, as
a one-dimensional vector. -/
def embLen : String → Vec := fun s => [(s.length : Int)]

lemma pyGet_natCast (l : List String) (i : Nat) :
    pyGet l (i : Int) = l.getD i "" := by
  unfold pyGet
  rw [if_pos (Int.natCast_nonneg i), Int.toNat_natCast]

lemma pyGet_neg_one (l : List String) (h : l ≠ []) :
    pyGet l (-1) = l.getLast h := by
  have hlen : 0 < l.length := List.length_pos.2 h
  have h1 : l.length - 1 < l.length := by omega
  unfold pyGet
  rw [if_neg (by decide : ¬ (0 : Int) ≤ -1)]
  have h2 : (-(-1 : Int)).toNat = 1 := rfl
  rw [h2, List.getD_eq_getElem _ _ h1, List.getLast_eq_getElem]

lemma getD_map_eq (e : String → Vec) (chunks : List String) (i : Nat)
    (h : i < chunks.length) :
    (chunks.map e).getD i [] = e (chunks.getD i "") := by
  rw [List.getD_eq_getElem _ _ (by simpa using h), List.getD_eq_getElem _ _ h,
    List.getElem_map]

lemma sortedPairs_length (vecs : List Vec) (q : Vec) :
    (sortedPairs vecs q).length = vecs.length := by
  unfold sortedPairs
  rw [(List.perm_insertionSort pairLe _).length_eq, List.length_map,
    List.enum_length]

lemma searchPairs_length (vecs : List Vec) (q : Vec) (k : Nat) :
    (searchPairs vecs q k).length = min k vecs.length := by
  unfold searchPairs
  rw [List.length_take, sortedPairs_length]

lemma searchPairs_mem {vecs : List Vec} {q : Vec} {k : Nat} {p : Int × Nat}
    (hp : p ∈ searchPairs vecs q k) :
    p.2 < vecs.length ∧ p.1 = dist2 q (vecs.getD p.2 []) := by
  have h1 : p ∈ sortedPairs vecs q := List.mem_of_mem_take hp
  have h2 : p ∈ (vecs.enum).map (fun r => (dist2 q r.2, r.1)) :=
    (List.perm_insertionSort pairLe _).mem_iff.1 h1
  rcases List.mem_map.1 h2 with ⟨r, hr, hpr⟩
  rcases List.mem_iff_getElem.1 hr with ⟨j, hj, hget⟩
  rw [List.getElem_enum] at hget
  subst hget
  subst hpr
  have hjl : j < vecs.length := by simpa [List.enum_length] using hj
  refine ⟨hjl, ?_⟩
  rw [List.getD_eq_getElem _ _ hjl]

lemma searchPairs_sorted (vecs : List Vec) (q : Vec) (k : Nat) :
    List.Sorted (· ≤ ·) ((searchPairs vecs q k).map Prod.fst) := by
  have hs : List.Sorted pairLe (sortedPairs vecs q) :=
    List.sorted_insertionSort pairLe _
  have ht : List.Sorted pairLe (searchPairs vecs q k) :=
    List.Pairwise.sublist (List.take_sublist k _) hs
  rw [List.Sorted, List.pairwise_map]
  refine ht.imp ?_
  intro a b hab
  rcases hab with h | ⟨h, _⟩
  · exact le_of_lt h
  · exact le_of_eq h

lemma query_built_decomp (e : String → Vec) (chunks : List String) (q : String)
    (k : Nat) (hne : chunks ≠ []) :
    query_document_rag ⟨some e, some (chunks.map e), chunks⟩ q k =
      ((searchPairs (chunks.map e) (e q) k).map (fun p => chunks.getD p.2 ""))
        ++ List.replicate (k - min k chunks.length) (chunks.getLast hne) := by
  show (faiss_search_ids (chunks.map e) (e q) k).map (pyGet chunks) = _
  unfold faiss_search_ids
  rw [List.map_append, List.map_map, List.map_replicate, searchPairs_length,
    List.length_map, pyGet_neg_one chunks hne]
  have hmap : ∀ p ∈ searchPairs (chunks.map e) (e q) k,
      (pyGet chunks ∘ fun r : Int × Nat => (r.2 : Int)) p = chunks.getD p.2 "" :=
    fun p _ => pyGet_natCast chunks p.2
  rw [List.map_congr_left hmap]

/-- C7: when the corpus was never successfully built (no vector store, or
no embedding model), `query_document_rag` does not raise and returns the
explicit "not available" sentinel, so callers can degrade to proceeding
with no context. -/
theorem query_unavailable_sentinel (kb : KB) (q : String) (k : Nat)
    (h : kb.vector_store = none ∨ kb.embedding_model = none) :
    query_document_rag kb q k =
      ["RAG system not initialized or PDF not processed."] := by
  rcases kb with ⟨em, vs, chunks⟩
  rcases h with h | h <;> cases em <;> cases vs <;> simp_all [query_document_rag]

theorem query_unavailable_sentinel_witness :
    query_document_rag ⟨none, none, ["a"]⟩ "distillation" 3 =
      ["RAG system not initialized or PDF not processed."] :=
  query_unavailable_sentinel ⟨none, none, ["a"]⟩ "distillation" 3 (Or.inl rfl)

/-- C4 (amended): when the document cannot be opened or parsed at all,
`_load_and_index_pdf` raises a `RuntimeError` carrying the source path and
the underlying cause, but `_initialize_and_build_rag` absorbs it: the
constructor returns normally with `embedding_model = None` and no cache
artifact written, instead of propagating the error to the caller. -/
theorem document_load_error_absorbed (e : String → Vec) (S O : Nat)
    (path cause : String) (prior : List String) (cache : Cache) :
    _load_and_index_pdf e S O path (.error cause) =
      .error ("Failed to load or parse PDF " ++ path ++ ": " ++ cause)
    ∧ _initialize_and_build_rag e S O path (.error cause) prior cache =
      (⟨none, none, prior⟩, cache) :=
  ⟨rfl, rfl⟩

/-- The document-open failure used in the concrete counterexamples. -/
def unopenableDoc : Except String (List Page) := .error "PDF parse failure"

/-- C4 counterexample: on a concrete unopenable document with no cache,
the knowledge-base constructor does not abort with a typed error
propagated to the caller — it completes normally, returning a degraded
instance (`embedding_model = None`) and an untouched cache. -/
theorem document_load_error_counterexample :
    _load_and_index_pdf embLen 500 50 "missing.pdf" unopenableDoc =
      .error "Failed to load or parse PDF missing.pdf: PDF parse failure"
    ∧ kb_init embLen 500 50 "missing.pdf" unopenableDoc false ⟨none, none⟩ =
      (⟨none, none, []⟩, ⟨none, none⟩) :=
  ⟨rfl, rfl⟩

/-- C1 (amended): for a built corpus (embedding model `e`, chunks embedded
in order into the flat index) and any query, `query_document_rag` returns
exactly `k` entries, not `min k n`: the first `min k n` entries are stored
fragments in non-decreasing order of squared L2 distance to the query
vector, and when the corpus has fewer than `k` fragments the remaining
`k - n` entries are padding — FAISS fills the label row with `-1`, which
Python list indexing resolves to the **last** fragment, duplicated. -/
theorem query_k_bounding_padded (e : String → Vec) (chunks : List String)
    (q : String) (k : Nat) (hne : chunks ≠ []) :
    (query_document_rag ⟨some e, some (chunks.map e), chunks⟩ q k).length = k
    ∧ List.take (min k chunks.length)
        (query_document_rag ⟨some e, some (chunks.map e), chunks⟩ q k) =
        (searchPairs (chunks.map e) (e q) k).map (fun p => chunks.getD p.2 "")
    ∧ List.Sorted (· ≤ ·)
        ((List.take (min k chunks.length)
            (query_document_rag ⟨some e, some (chunks.map e), chunks⟩ q k)).map
          (fun t => dist2 (e q) (e t)))
    ∧ (∀ t ∈ List.take (min k chunks.length)
          (query_document_rag ⟨some e, some (chunks.map e), chunks⟩ q k),
        t ∈ chunks)
    ∧ List.drop (min k chunks.length)
        (query_document_rag ⟨some e, some (chunks.map e), chunks⟩ q k) =
        List.replicate (k - min k chunks.length) (chunks.getLast hne) := by
  have hdec := query_built_decomp e chunks q k hne
  have hsplen : ((searchPairs (chunks.map e) (e q) k).map
      (fun p => chunks.getD p.2 "")).length = min k chunks.length := by
    rw [List.length_map, searchPairs_length, List.length_map]
  have htake : List.take (min k chunks.length)
      (query_document_rag ⟨some e, some (chunks.map e), chunks⟩ q k) =
      (searchPairs (chunks.map e) (e q) k).map (fun p => chunks.getD p.2 "") := by
    rw [hdec, List.take_left' hsplen]
  have hdrop : List.drop (min k chunks.length)
      (query_document_rag ⟨some e, some (chunks.map e), chunks⟩ q k) =
      List.replicate (k - min k chunks.length) (chunks.getLast hne) := by
    rw [hdec, List.drop_left' hsplen]
  refine ⟨?_, htake, ?_, ?_, hdrop⟩
  · rw [hdec, List.length_append, hsplen, List.length_replicate]
    omega
  · rw [htake, List.map_map]
    have hagree : ∀ p ∈ searchPairs (chunks.map e) (e q) k,
        ((fun t => dist2 (e q) (e t)) ∘ fun r : Int × Nat => chunks.getD r.2 "") p
          = Prod.fst p := by
      intro p hp
      rcases searchPairs_mem hp with ⟨hlt, hdist⟩
      rw [List.length_map] at hlt
      show dist2 (e q) (e (chunks.getD p.2 "")) = p.1
      rw [hdist, getD_map_eq e chunks p.2 hlt]
    rw [List.map_congr_left hagree]
    exact searchPairs_sorted (chunks.map e) (e q) k
  · intro t ht
    rw [htake] at ht
    rcases List.mem_map.1 ht with ⟨p, hp, hpt⟩
    rcases searchPairs_mem hp with ⟨hlt, _⟩
    rw [List.length_map] at hlt
    rw [← hpt, List.getD_eq_getElem _ _ hlt]
    exact List.getElem_mem hlt

theorem query_k_bounding_padded_witness :
    (query_document_rag ⟨some embLen, some (["aa", "b"].map embLen), ["aa", "b"]⟩
      "xyz" 3).length = 3 :=
  (query_k_bounding_padded embLen ["aa", "b"] "xyz" 3 (by decide)).1

/-- Built knowledge base over a single-fragment corpus, for the C1
counterexample. -/
def kbOne : KB := ⟨some embLen, some (["hello"].map embLen), ["hello"]⟩

/-- C1 counterexample: on a corpus with one fragment, a query with `k = 2`
returns two entries — the fragment and a duplicate of it produced by the
FAISS `-1` padding label under Python negative indexing — not
`min k n = 1` entries with no padding. -/
theorem query_k_bounding_counterexample :
    query_document_rag kbOne "q" 2 = ["hello", "hello"]
    ∧ (query_document_rag kbOne "q" 2).length ≠ min 2 kbOne.text_chunks.length := by
  refine ⟨rfl, ?_⟩
  decide

/-- C6: for a corpus built by `_load_and_index_pdf` (chunks embedded in
order, vectors added to the flat index in order), the fragment list, the
vector list and the index have the same size, vector `i` is the embedding
of fragment `i`, and every neighbor the index search returns carries an
in-range label `i` whose distance is the distance to fragment `i`'s
embedding and which Python positional lookup resolves to exactly
`text_chunks[i]`. -/
theorem corpus_positional_invariant (e : String → Vec) (chunks : List String)
    (q : String) (k : Nat) :
    (chunks.map e).length = chunks.length
    ∧ (∀ i, i < chunks.length → (chunks.map e).getD i [] = e (chunks.getD i ""))
    ∧ (∀ p ∈ searchPairs (chunks.map e) (e q) k,
        p.2 < chunks.length
        ∧ p.1 = dist2 (e q) (e (chunks.getD p.2 ""))
        ∧ pyGet chunks (p.2 : Int) = chunks.getD p.2 "") := by
  refine ⟨List.length_map chunks e, ?_, ?_⟩
  · intro i hi
    exact getD_map_eq e chunks i hi
  · intro p hp
    rcases searchPairs_mem hp with ⟨hlt, hdist⟩
    rw [List.length_map] at hlt
    exact ⟨hlt, by rw [hdist, getD_map_eq e chunks p.2 hlt],
      pyGet_natCast chunks p.2⟩

theorem corpus_positional_invariant_witness :
    ((1 : Int), (1 : Nat)) ∈ searchPairs (["ab", "cdef"].map embLen) (embLen "hello") 2
    ∧ ((1 : Nat) < (["ab", "cdef"] : List String).length
        ∧ (1 : Int) = dist2 (embLen "hello") (embLen ((["ab", "cdef"] : List String).getD 1 ""))
        ∧ pyGet ["ab", "cdef"] ((1 : Nat) : Int) = (["ab", "cdef"] : List String).getD 1 "") :=
  ⟨by decide,
    (corpus_positional_invariant embLen ["ab", "cdef"] "hello" 2).2.2 (1, 1) (by decide)⟩

lemma ceil_div_facts (W step : Nat) (hs : 0 < step) (hW : 0 < W) :
    1 ≤ (W + step - 1) / step
    ∧ W ≤ step * ((W + step - 1) / step)
    ∧ step * ((W + step - 1) / step) < W + step := by
  have h1 : 1 ≤ (W + step - 1) / step := by
    rw [Nat.one_le_div_iff hs]
    omega
  have hd := Nat.div_add_mod (W + step - 1) step
  have hm : (W + step - 1) % step < step := Nat.mod_lt _ hs
  exact ⟨h1, by omega, by omega⟩

/-- C2 (amended): for a non-empty word list of length `W`, chunking with
`chunk_size = S` and `chunk_overlap = O` (`O < S`) emits
`ceil(W / (S - O))` windows — Python's `range(0, W, S - O)` — window `i`
being the `S` words starting at offset `i * (S - O)`, and the final window
holding every remaining word of the paragraph (no trailing word is
dropped). -/
theorem chunk_windows_coverage (S O : Nat) (words : List String)
    (hOS : O < S) (hW : words ≠ []) :
    (chunk_windows S O words).length = (words.length + (S - O) - 1) / (S - O)
    ∧ (∀ i, i < (chunk_windows S O words).length →
        (chunk_windows S O words).getD i "" =
          String.intercalate " " ((words.drop (i * (S - O))).take S))
    ∧ 1 ≤ (words.length + (S - O) - 1) / (S - O)
    ∧ (chunk_windows S O words).getD
        (((words.length + (S - O) - 1) / (S - O)) - 1) "" =
        String.intercalate " "
          (words.drop ((((words.length + (S - O) - 1) / (S - O)) - 1) * (S - O))) := by
  have hs : 0 < S - O := by omega
  have hWpos : 0 < words.length := List.length_pos.2 hW
  rcases ceil_div_facts words.length (S - O) hs hWpos with ⟨h1, h2, h3⟩
  have hlen : (chunk_windows S O words).length =
      (words.length + (S - O) - 1) / (S - O) := by
    unfold chunk_windows
    rw [List.length_map, List.length_range']
  have hget : ∀ i, i < (chunk_windows S O words).length →
      (chunk_windows S O words).getD i "" =
        String.intercalate " " ((words.drop (i * (S - O))).take S) := by
    intro i hi
    have hi' : i < (words.length + (S - O) - 1) / (S - O) := by
      rw [← hlen]; exact hi
    rw [List.getD_eq_getElem _ _ hi]
    unfold chunk_windows
    rw [List.getElem_map, List.getElem_range']
    rw [Nat.zero_add, Nat.mul_comm]
  refine ⟨hlen, hget, h1, ?_⟩
  have hidx : ((words.length + (S - O) - 1) / (S - O)) - 1 <
      (chunk_windows S O words).length := by
    rw [hlen]; omega
  rw [hget _ hidx]
  congr 1
  apply List.take_of_length_le
  rw [List.length_drop, Nat.sub_mul, one_mul, Nat.mul_comm]
  omega

theorem chunk_windows_coverage_witness :
    (chunk_windows 3 1 ["x", "y", "z"]).length = (3 + (3 - 1) - 1) / (3 - 1) :=
  (chunk_windows_coverage 3 1 ["x", "y", "z"] (by decide) (by decide)).1

/-- C2 counterexample: a paragraph of `W = 5` words with `chunk_size = 5`
and `chunk_overlap = 1` yields two windows (`range(0, 5, 4)` visits 0 and
4), whereas the claimed count `ceil(max(W - O, 1) / (S - O)) =
ceil(4 / 4)` is 1. -/
theorem chunk_windows_count_counterexample :
    chunk_windows 5 1 ["a", "b", "c", "d", "e"] = ["a b c d e", "e"]
    ∧ (chunk_windows 5 1 ["a", "b", "c", "d", "e"]).length ≠
        (max (5 - 1) 1 + (5 - 1) - 1) / (5 - 1) := by
  refine ⟨?_, by decide⟩
  rfl

lemma snd_mem_of_mem_enum {α : Type} {l : List α} {ip : Nat × α}
    (h : ip ∈ l.enum) : ip.2 ∈ l := by
  rcases List.mem_iff_getElem.1 h with ⟨j, hj, hget⟩
  rw [List.getElem_enum] at hget
  rw [← hget]
  exact List.getElem_mem (by simpa [List.enum_length] using hj)

lemma all_content_chunks_nil (S O : Nat) (pages : List Page)
    (htext : ∀ p ∈ pages, isBlank p.text = true)
    (htab : ∀ p ∈ pages, ∀ ts, p.tables = .ok ts → ∀ t ∈ ts, t.empty = true) :
    all_content_chunks S O pages = [] := by
  unfold all_content_chunks
  rw [List.flatten_eq_nil_iff]
  intro l hl
  rcases List.mem_map.1 hl with ⟨ip, hip, hfl⟩
  have hpm : ip.2 ∈ pages := snd_mem_of_mem_enum hip
  rw [← hfl]
  unfold process_page
  have htc : page_table_chunks ip.1 ip.2 = [] := by
    unfold page_table_chunks
    rcases hts : ip.2.tables with m | ts
    · rfl
    · rw [List.filterMap_eq_nil_iff]
      intro a ha
      rw [htab ip.2 hpm ts hts a.2 (snd_mem_of_mem_enum ha)]
      rfl
  have hxc : page_text_chunks S O ip.2.text = [] := by
    unfold page_text_chunks
    rw [htext ip.2 hpm]
    rfl
  rw [htc, hxc]
  rfl

/-- C3 (amended): for a document whose pages carry only whitespace text
and in which no (non-empty) tables were found, `_load_and_index_pdf`
raises (`ValueError`, the spec's `EmptyDocumentError`) before any cache
write, but `_initialize_and_build_rag` absorbs the error: the constructor
returns normally with an unavailable knowledge base
(`embedding_model = None`) and neither cache artifact is written. -/
theorem empty_document_absorbed (e : String → Vec) (S O : Nat) (path : String)
    (pages : List Page) (prior : List String) (cache : Cache)
    (htext : ∀ p ∈ pages, isBlank p.text = true)
    (htab : ∀ p ∈ pages, ∀ ts, p.tables = .ok ts → ∀ t ∈ ts, t.empty = true) :
    _load_and_index_pdf e S O path (.ok pages) =
      .error "Text chunking resulted in no chunks."
    ∧ _initialize_and_build_rag e S O path (.ok pages) prior cache =
      (⟨none, none, []⟩, cache) := by
  have hnil : (all_content_chunks S O pages).filter (fun c => !(isBlank c)) = [] := by
    rw [all_content_chunks_nil S O pages htext htab]
    rfl
  have hload : _load_and_index_pdf e S O path (.ok pages) =
      .error "Text chunking resulted in no chunks." := by
    simp only [_load_and_index_pdf, hnil]
    rfl
  refine ⟨hload, ?_⟩
  simp only [_initialize_and_build_rag, hload]

/-- The all-whitespace one-page document of the concrete C3 instance. -/
def blankDoc : Except String (List Page) := .ok [⟨"   \n\n  ", .ok []⟩]

/-- C3 counterexample: for a concrete whitespace-only document with no
tables and an empty cache, the internal `ValueError` is raised but the
constructor still completes normally — no error reaches the caller; the
knowledge base is merely left unavailable (queries get the sentinel) and
the cache stays empty. -/
theorem empty_document_not_propagated_counterexample :
    _load_and_index_pdf embLen 500 50 "perry.pdf" blankDoc =
      .error "Text chunking resulted in no chunks."
    ∧ kb_init embLen 500 50 "perry.pdf" blankDoc false ⟨none, none⟩ =
      (⟨none, none, []⟩, ⟨none, none⟩)
    ∧ query_document_rag
        (kb_init embLen 500 50 "perry.pdf" blankDoc false ⟨none, none⟩).1 "q" 3 =
      ["RAG system not initialized or PDF not processed."] :=
  ⟨rfl, rfl, rfl⟩

/-- C5 (amended): a cached corpus is loaded if and only if both cache
files exist and both parse — the sizes are **not** compared; a missing
file, a load exception, or `force_reprocess` falls through to the full
rebuild (with no error surfaced, by construction of the total builder),
and a successful rebuild overwrites both cache artifacts with a matching
pair. -/
theorem cache_policy (e : String → Vec) (S O : Nat) (path : String)
    (doc : Except String (List Page)) (cache : Cache) :
    (∀ chunks vecs, cache = ⟨some (.ok chunks), some (.ok vecs)⟩ →
        kb_init e S O path doc false cache = (⟨some e, some vecs, chunks⟩, cache))
    ∧ kb_init e S O path doc true cache =
        _initialize_and_build_rag e S O path doc [] cache
    ∧ (cache.chunks_file = none ∨ cache.faiss_file = none →
        kb_init e S O path doc false cache =
          _initialize_and_build_rag e S O path doc [] cache)
    ∧ (∀ m, cache.chunks_file = some (.error m) →
        kb_init e S O path doc false cache =
          _initialize_and_build_rag e S O path doc [] cache)
    ∧ (∀ chunks m, cache = ⟨some (.ok chunks), some (.error m)⟩ →
        kb_init e S O path doc false cache =
          _initialize_and_build_rag e S O path doc chunks cache)
    ∧ (∀ chunks vecs prior,
        _load_and_index_pdf e S O path doc = .ok (chunks, vecs) →
        _initialize_and_build_rag e S O path doc prior cache =
          (⟨some e, some vecs, chunks⟩, ⟨some (.ok chunks), some (.ok vecs)⟩)) := by
  refine ⟨?_, ?_, ?_, ?_, ?_, ?_⟩
  · intro chunks vecs hc
    subst hc
    rfl
  · rfl
  · rcases cache with ⟨cf, ff⟩
    rintro (h | h) <;> subst h
    · rfl
    · cases cf with
      | none => rfl
      | some x => cases x <;> rfl
  · rcases cache with ⟨cf, ff⟩
    intro m hm
    subst hm
    cases ff with
    | none => rfl
    | some x => cases x <;> rfl
  · intro chunks m hc
    subst hc
    rfl
  · intro chunks vecs prior hload
    have hne : chunks.isEmpty = false := by
      rcases doc with cause | pages
      · exact absurd hload (by simp [_load_and_index_pdf])
      · rcases hemp : ((all_content_chunks S O pages).filter
            (fun c => !(isBlank c))).isEmpty with _ | _
        · have hok : _load_and_index_pdf e S O path (.ok pages) =
              .ok ((all_content_chunks S O pages).filter (fun c => !(isBlank c)),
                ((all_content_chunks S O pages).filter (fun c => !(isBlank c))).map e) := by
            simp only [_load_and_index_pdf]
            rw [if_neg (by simp [hemp])]
          rw [hok, Except.ok.injEq, Prod.mk.injEq] at hload
          rw [← hload.1]
          exact hemp
        · have herr : _load_and_index_pdf e S O path (.ok pages) =
              .error "Text chunking resulted in no chunks." := by
            simp only [_load_and_index_pdf]
            rw [if_pos hemp]
          rw [herr] at hload
          exact absurd hload (by simp)
    unfold _initialize_and_build_rag
    rw [hload]
    simp [hne]

theorem cache_policy_witness :
    kb_init embLen 500 50 "perry.pdf" blankDoc false
        ⟨some (.ok ["alpha"]), some (.ok [[0]])⟩ =
      (⟨some embLen, some [[0]], ["alpha"]⟩,
        ⟨some (.ok ["alpha"]), some (.ok [[0]])⟩) :=
  (cache_policy embLen 500 50 "perry.pdf" blankDoc
    ⟨some (.ok ["alpha"]), some (.ok [[0]])⟩).1 ["alpha"] [[0]] rfl

/-- Cache pair whose two artifacts parse but disagree in size: two chunks
against a single stored vector. -/
def mismatchCache : Cache := ⟨some (.ok ["alpha", "beta"]), some (.ok [[0]])⟩

/-- A perfectly loadable one-page document, available for a rebuild. -/
def someDoc : Except String (List Page) := .ok [⟨"hello world", .ok []⟩]

/-- C5 counterexample: a cache whose fragment file holds two fragments
while the index file holds one vector is still loaded verbatim — the code
never compares the sizes, so the size disagreement neither triggers a
rebuild nor overwrites the stale pair, contradicting the claimed
load-validity condition. -/
theorem cache_size_mismatch_counterexample :
    kb_init embLen 500 50 "perry.pdf" someDoc false mismatchCache =
      (⟨some embLen, some [[0]], ["alpha", "beta"]⟩, mismatchCache)
    ∧ (["alpha", "beta"] : List String).length ≠ ([[0]] : List Vec).length := by
  refine ⟨rfl, by decide⟩

/-- C8: a camelot failure on one page is non-fatal — that page contributes
zero table fragments but its plain text is still chunked, the chunk list
of the whole document equals that of the same document with the failing
page's tables simply absent (every other page unaffected), and as long as
any non-blank chunk remains, `_load_and_index_pdf` still succeeds with
exactly those chunks. -/
theorem table_failure_graceful (e : String → Vec) (S O : Nat) (path : String)
    (pages : List Page) (i : Nat) (msg : String) (hi : i < pages.length)
    (herr : pages[i].tables = .error msg) :
    process_page S O i pages[i] = page_text_chunks S O pages[i].text
    ∧ all_content_chunks S O pages =
        all_content_chunks S O (pages.set i ⟨pages[i].text, .ok []⟩)
    ∧ (((all_content_chunks S O pages).filter (fun c => !(isBlank c))).isEmpty
          = false →
        _load_and_index_pdf e S O path (.ok pages) =
          .ok ((all_content_chunks S O pages).filter (fun c => !(isBlank c)),
            ((all_content_chunks S O pages).filter (fun c => !(isBlank c))).map e))
    := by
  have h1 : process_page S O i pages[i] = page_text_chunks S O pages[i].text := by
    unfold process_page page_table_chunks
    rw [herr]
    rfl
  refine ⟨h1, ?_, ?_⟩
  · unfold all_content_chunks
    congr 1
    apply List.ext_getElem
    · rw [List.length_map, List.length_map, List.enum_length, List.enum_length,
        List.length_set]
    · intro n hn1 hn2
      rw [List.getElem_map, List.getElem_map, List.getElem_enum, List.getElem_enum,
        List.getElem_set]
      by_cases hin : i = n
      · subst hin
        rw [if_pos rfl, h1]
        unfold process_page page_table_chunks
        rfl
      · rw [if_neg hin]
  · intro hemp
    simp only [_load_and_index_pdf]
    rw [if_neg (by simp [hemp])]

/-- Two-page document whose first page fails table extraction but still
has text, used to instantiate C8. -/
def twoPageDoc : List Page :=
  [⟨"alpha beta", .error "page parse error"⟩, ⟨"gamma", .ok []⟩]

theorem table_failure_graceful_witness :
    process_page 500 50 0 (⟨"alpha beta", .error "page parse error"⟩ : Page) =
      page_text_chunks 500 50 "alpha beta" := by
  exact (table_failure_graceful embLen 500 50 "doc.pdf" twoPageDoc 0
    "page parse error" (by decide) rfl).1

/-- C10 (amended): with all four required keys present and bound to
numbers, `_determine_flow_regime` raises `ValueError` exactly when the
viscosity equals zero; otherwise it returns the Reynolds number
`density * velocity * diameter / viscosity` **rounded to two decimals**
(`round(re, 2)`), classified on the unrounded value as laminar below
2300, transitional in `[2300, 4000)`, and turbulent from 4000 up. -/
theorem flow_regime_guard (params : Params) (density velocity diameter viscosity : ℚ)
    (hd : List.lookup "density_kg_m3" params = some (.num density))
    (hv : List.lookup "velocity_m_s" params = some (.num velocity))
    (hdi : List.lookup "diameter_m" params = some (.num diameter))
    (hvi : List.lookup "viscosity_Pa_s" params = some (.num viscosity)) :
    (viscosity = 0 → _determine_flow_regime params =
      .error (.valueError "Viscosity cannot be zero for Reynolds number calculation."))
    ∧ (viscosity ≠ 0 → ∃ regime : String,
        _determine_flow_regime params =
          .ok [("reynolds_number",
                  .num (pyRound2 (density * velocity * diameter / viscosity))),
               ("flow_regime", .str regime)]
        ∧ (density * velocity * diameter / viscosity < 2300 → regime = "laminar")
        ∧ (2300 ≤ density * velocity * diameter / viscosity →
            density * velocity * diameter / viscosity < 4000 →
              regime = "transitional")
        ∧ (4000 ≤ density * velocity * diameter / viscosity →
            regime = "turbulent")) := by
  have hreq : requiredPresent params
      ["density_kg_m3", "velocity_m_s", "diameter_m", "viscosity_Pa_s"] = true := by
    simp [requiredPresent, hd, hv, hdi, hvi]
  constructor
  · intro h0
    subst h0
    simp [_determine_flow_regime, hreq, hvi, pyEqZero]
  · intro hne
    refine ⟨if density * velocity * diameter / viscosity < 2300 then "laminar"
        else if density * velocity * diameter / viscosity < 4000 then "transitional"
        else "turbulent", ?_, ?_, ?_, ?_⟩
    · simp [_determine_flow_regime, hreq, hd, hv, hdi, hvi, pyEqZero, asNum, hne]
      rfl
    · intro h
      rw [if_pos h]
    · intro h1 h2
      rw [if_neg (not_lt.2 h1), if_pos h2]
    · intro h
      rw [if_neg (by linarith), if_neg (by linarith)]

theorem flow_regime_guard_witness :
    _determine_flow_regime
        [("density_kg_m3", .num 1), ("velocity_m_s", .num 1),
         ("diameter_m", .num 1), ("viscosity_Pa_s", .num 0)] =
      .error (.valueError "Viscosity cannot be zero for Reynolds number calculation.") :=
  (flow_regime_guard
    [("density_kg_m3", .num 1), ("velocity_m_s", .num 1),
     ("diameter_m", .num 1), ("viscosity_Pa_s", .num 0)]
    1 1 1 0 rfl rfl rfl rfl).1 rfl

/-- Parameter dictionary giving a Reynolds number of 1/3, whose returned
value is visibly rounded. -/
def flowRegimeCexParams : Params :=
  [("density_kg_m3", .num 1), ("velocity_m_s", .num 1),
   ("diameter_m", .num 1), ("viscosity_Pa_s", .num 3)]

/-- C10 counterexample: with density, velocity and diameter 1 and
viscosity 3, the exact Reynolds number is 1/3, but the function returns
`round(1/3, 2) = 0.33` — the returned `reynolds_number` is not
`density * velocity * diameter / viscosity` as claimed. -/
theorem flow_regime_rounding_counterexample :
    _determine_flow_regime flowRegimeCexParams =
      .ok [("reynolds_number", .num (pyRound2 ((1 : ℚ) * 1 * 1 / 3))),
           ("flow_regime", .str "laminar")]
    ∧ pyRound2 ((1 : ℚ) * 1 * 1 / 3) = 33 / 100
    ∧ pyRound2 ((1 : ℚ) * 1 * 1 / 3) ≠ (1 * 1 * 1 / 3 : ℚ) := by
  have hreq : requiredPresent flowRegimeCexParams
      ["density_kg_m3", "velocity_m_s", "diameter_m", "viscosity_Pa_s"] = true := by
    simp [requiredPresent, flowRegimeCexParams, List.lookup]
  refine ⟨?_, ?_, ?_⟩
  · have h1 : List.lookup "density_kg_m3" flowRegimeCexParams = some (.num 1) := rfl
    have h2 : List.lookup "velocity_m_s" flowRegimeCexParams = some (.num 1) := rfl
    have h3 : List.lookup "diameter_m" flowRegimeCexParams = some (.num 1) := rfl
    have h4 : List.lookup "viscosity_Pa_s" flowRegimeCexParams = some (.num 3) := rfl
    have hne : (3 : ℚ) ≠ 0 := by norm_num
    simp [_determine_flow_regime, hreq, h1, h2, h3, h4, pyEqZero, asNum, hne]
    simp only [bind, Except.bind]
    norm_num
  · norm_num [pyRound2, pyRoundHalfEven]
  · norm_num [pyRound2, pyRoundHalfEven]

lemma gfp_water_density :
    get_fluid_property "water" "density_kg_m3" = some 1000 := rfl

lemma gfp_water_viscosity :
    get_fluid_property "water" "viscosity_Pa_s" = some (1 / 1000) := rfl

lemma calc_pd_ok : ∃ r, _calculate_pressure_drop extracted_params = .ok r := by
  have hreq : requiredPresent extracted_params ["density_kg_m3", "velocity_m_s",
      "length_m", "diameter_m", "viscosity_Pa_s", "roughness_m"] = true := rfl
  have hL : List.lookup "length_m" extracted_params = some (.num 100) := rfl
  have hD : List.lookup "diameter_m" extracted_params = some (.num (1 / 10)) := rfl
  have hDen : List.lookup "density_kg_m3" extracted_params =
      some (.num ((get_fluid_property "water" "density_kg_m3").getD 1000)) := rfl
  have hV : List.lookup "velocity_m_s" extracted_params =
      some (.num (637 / 1000)) := rfl
  simp [_calculate_pressure_drop, hreq, hL, hD, hDen, hV, asNum]
  simp only [bind, Except.bind]
  split
  next h => exact absurd h (by norm_num)
  next => exact ⟨_, rfl⟩

lemma det_fr_ok : ∃ r, _determine_flow_regime extracted_params = .ok r := by
  have hreq : requiredPresent extracted_params ["density_kg_m3", "velocity_m_s",
      "diameter_m", "viscosity_Pa_s"] = true := rfl
  have hDen : List.lookup "density_kg_m3" extracted_params =
      some (.num ((get_fluid_property "water" "density_kg_m3").getD 1000)) := rfl
  have hV : List.lookup "velocity_m_s" extracted_params =
      some (.num (637 / 1000)) := rfl
  have hD : List.lookup "diameter_m" extracted_params = some (.num (1 / 10)) := rfl
  have hVi : List.lookup "viscosity_Pa_s" extracted_params =
      some (.num ((get_fluid_property "water" "viscosity_Pa_s").getD (1 / 1000))) := rfl
  simp [_determine_flow_regime, hreq, hDen, hV, hD, hVi, asNum, pyEqZero]
  simp only [bind, Except.bind]
  split
  next h =>
    exact absurd h (by simp only [gfp_water_viscosity, Option.getD_some]; norm_num)
  next => exact ⟨_, rfl⟩

/-- C9: `execute_task` is total at its public interface — for every task
description it returns a status dictionary whose `status` entry is either
`"success"` or `"error"`: capability exceptions are caught and converted
to error results, and an unrecognized task type produces an error result
rather than a raised exception or a failed capability lookup. -/
theorem execute_task_total (task_description : String) :
    (List.lookup "status" (execute_task task_description) = some (.str "success")
      ∨ List.lookup "status" (execute_task task_description) = some (.str "error"))
    ∧ ((_parse_task task_description).1 = "unknown" →
        List.lookup "status" (execute_task task_description) = some (.str "error")) := by
  cases hb1 : strContainsSub "pressure drop".data (strLower task_description).data with
  | true =>
      have hp : _parse_task task_description = ("pressure_drop", extracted_params) := by
        simp [_parse_task, hb1]
      rcases calc_pd_ok with ⟨r, hr⟩
      constructor
      · left
        simp [execute_task, hp, capabilities, List.lookup, hr]
      · intro hx
        rw [hp] at hx
        exact absurd hx (by decide)
  | false =>
      cases hb2 : strContainsSub "flow regime".data (strLower task_description).data with
      | true =>
          have hp : _parse_task task_description = ("flow_regime", extracted_params) := by
            simp [_parse_task, hb1, hb2]
          rcases det_fr_ok with ⟨r, hr⟩
          constructor
          · left
            simp [execute_task, hp, capabilities, List.lookup, hr]
          · intro hx
            rw [hp] at hx
            exact absurd hx (by decide)
      | false =>
          have hp : _parse_task task_description =
              ("unknown", [("original_task", .str task_description)]) := by
            simp [_parse_task, hb1, hb2]
          constructor
          · right
            simp [execute_task, hp, capabilities, List.lookup]
          · intro hx
            simp [execute_task, hp, capabilities, List.lookup]

theorem execute_task_total_witness :
    List.lookup "status" (execute_task "synthesize ammonia") = some (.str "error") :=
  (execute_task_total "synthesize ammonia").2 (by rfl)

theorem empty_document_absorbed_witness :
    _load_and_index_pdf embLen 500 50 "h.pdf" (.ok [⟨" ", .ok []⟩]) =
      .error "Text chunking resulted in no chunks."
    ∧ _initialize_and_build_rag embLen 500 50 "h.pdf" (.ok [⟨" ", .ok []⟩]) []
        ⟨none, none⟩ =
      (⟨none, none, []⟩, ⟨none, none⟩) :=
  empty_document_absorbed embLen 500 50 "h.pdf" [⟨" ", .ok []⟩] [] ⟨none, none⟩
    (by decide)
    (by
      intro p hp ts hts t ht
      rw [List.mem_singleton] at hp
      subst hp
      rw [Except.ok.injEq] at hts
      subst hts
      exact absurd ht (List.not_mem_nil t))
